import Mathlib

/-
Shallow embedding of the Google Ads Visualizer (src/src/App.tsx).
Sizes and pointer coordinates are JS numbers, modelled as rationals.
-/

namespace GAV

/-- The AdSize record from App.tsx (interface AdSize, lines 23-26). -/
structure AdSize where
  w : ℚ
  h : ℚ
  deriving DecidableEq

/-- Line 69: const isLeaderboard = size.w > size.h * 1.5. -/
def AdSize.isLeaderboard (s : AdSize) : Bool := decide (s.w > s.h * 1.5)

/-- Line 70: const isSkyscraper = size.h > size.w * 1.5. -/
def AdSize.isSkyscraper (s : AdSize) : Bool := decide (s.h > s.w * 1.5)

/-- Line 71: const isMicro = size.h <= 60. -/
def AdSize.isMicro (s : AdSize) : Bool := decide (s.h ≤ 60)

/-- The three-way layout branch the JSX takes (isLeaderboard tested first,
then isSkyscraper, else the default), as in lines 116-135 and 169-179. -/
inductive LayoutClass where
  | Leaderboard
  | Skyscraper
  | Standard
  deriving DecidableEq

/-- The branch of the nested ternaries actually taken by the render:
isLeaderboard ? ... : isSkyscraper ? ... : standard. -/
def classify (s : AdSize) : LayoutClass :=
  if s.isLeaderboard then LayoutClass.Leaderboard
  else if s.isSkyscraper then LayoutClass.Skyscraper
  else LayoutClass.Standard

/-- The text region produced by AdCanvas (lines 158-191): a headline with the
font size of the style attribute on the h3 (lines 172-178), and the subhead
paragraph which is rendered only when not micro (lines 183-190), with the font
size of line 186. -/
structure TextRegion where
  headlineText : String
  headlineFontSize : ℚ
  subhead : Option (String × ℚ)
  deriving DecidableEq

/-- Lines 169-190 of App.tsx: the h3 font size is
isMicro ? 11 : isLeaderboard ? 18 : isSkyscraper ? 20 : 18, and the
subhead p element exists iff !isMicro, with font size isSkyscraper ? 14 : 12. -/
def renderText (s : AdSize) (headline sub : String) : TextRegion :=
  { headlineText := headline
    headlineFontSize :=
      if s.isMicro then 11
      else if s.isLeaderboard then 18
      else if s.isSkyscraper then 20
      else 18
    subhead :=
      if s.isMicro then none
      else some (sub, if s.isSkyscraper then 14 else 12) }

/-- The image region content of AdCanvas (lines 139-155): either an img element
with the translate/scale transform, or the dashed placeholder whose icon size is
isMicro ? 12 : 24 (line 153). -/
inductive ImageRegion where
  | imgEl (src : String) (offset : ℚ × ℚ) (scale : ℚ)
  | placeholder (iconSize : ℚ)
  deriving DecidableEq

/-- Lines 139-155: image ? <img .../> : <div dashed placeholder>. -/
def renderImage (s : AdSize) (image : Option String) (scale : ℚ)
    (offset : ℚ × ℚ) : ImageRegion :=
  match image with
  | some src => ImageRegion.imgEl src offset scale
  | none => ImageRegion.placeholder (if s.isMicro then 12 else 24)

/-- The Preset record (interface Preset, lines 42-52). -/
structure Preset where
  id : String
  name : String
  headline : String
  subhead : String
  cta : String
  primaryColor : String
  darkMode : Bool
  imageScale : ℚ
  imageOffset : ℚ × ℚ
  deriving DecidableEq

/-- The App component's state (useState hooks, lines 322-345). -/
structure AppState where
  images : List String
  activeImageIndex : Nat
  headline : String
  subhead : String
  cta : String
  primaryColor : String
  darkMode : Bool
  imageScale : ℚ
  imageOffset : ℚ × ℚ
  presets : List Preset
  deriving DecidableEq

/-- Initial state of the App component (lines 322-334), with the presets list
produced at startup passed in. -/
def initialAppState (startupPresets : List Preset) : AppState :=
  { images := []
    activeImageIndex := 0
    headline := ""
    subhead := ""
    cta := ""
    primaryColor := "#EF4444"
    darkMode := false
    imageScale := 1
    imageOffset := (0, 0)
    presets := startupPresets }

/-- The preset object built by handleSavePreset (lines 381-391): a snapshot of
the current headline, subhead, cta, primaryColor, darkMode, imageScale and
imageOffset, with the prompted name and a fresh id. -/
def mkPreset (id name : String) (st : AppState) : Preset :=
  { id := id
    name := name
    headline := st.headline
    subhead := st.subhead
    cta := st.cta
    primaryColor := st.primaryColor
    darkMode := st.darkMode
    imageScale := st.imageScale
    imageOffset := st.imageOffset }

/-- handleSavePreset (lines 378-393). promptResult is the window.prompt return
value: none models null (cancel); the empty string is falsy in JS, so both
abort the save. Otherwise setPresets(prev => [preset, ...prev].slice(0, 10)). -/
def handleSavePreset (st : AppState) (promptResult : Option String)
    (id : String) : AppState :=
  match promptResult with
  | none => st
  | some name =>
    if name = "" then st
    else { st with presets := (mkPreset id name st :: st.presets).take 10 }

/-- applyPreset (lines 395-403): sets the seven fields from the preset,
verbatim, with no clamping. -/
def applyPreset (st : AppState) (p : Preset) : AppState :=
  { st with
    headline := p.headline
    subhead := p.subhead
    cta := p.cta
    primaryColor := p.primaryColor
    darkMode := p.darkMode
    imageScale := p.imageScale
    imageOffset := p.imageOffset }

/-- The scale slider's onChange handler (line 539):
setImageScale(parseFloat(e.target.value)) - the parsed value is stored as is;
no clamping happens in the handler. -/
def handleScaleChange (st : AppState) (v : ℚ) : AppState :=
  { st with imageScale := v }

/-- deletePreset (lines 405-407). -/
def deletePreset (st : AppState) (id : String) : AppState :=
  { st with presets := st.presets.filter (fun p => p.id ≠ id) }

/-- Line 358: const activeImage = images[activeImageIndex] ?? null.
A JS out-of-bounds index read yields undefined, coalesced to null: get?. -/
def activeImage (st : AppState) : Option String :=
  st.images.get? st.activeImageIndex

/-- The drag-relevant state of one AdCanvas instance: its props
(enableDrag, whether onImageOffsetChange was passed, image), the dragging
flag and the two refs (lines 82-84), together with the shared imageOffset that
onImageOffsetChange (= setImageOffset, line 729) writes to. -/
structure CanvasState where
  enableDrag : Bool
  hasCallback : Bool
  image : Option String
  dragging : Bool
  dragStart : Option (ℚ × ℚ)
  offsetStart : Option (ℚ × ℚ)
  imageOffset : ℚ × ℚ
  deriving DecidableEq

/-- handleMouseDown (lines 86-92): guarded by enableDrag, onImageOffsetChange
and image; records the pointer position and the current offset in the refs. -/
def handleMouseDown (st : CanvasState) (pos : ℚ × ℚ) : CanvasState :=
  if !st.enableDrag || !st.hasCallback || st.image.isNone then st
  else { st with
    dragging := true
    dragStart := some pos
    offsetStart := some st.imageOffset }

/-- handleMouseMove (lines 94-104): guarded by enableDrag, dragging and
onImageOffsetChange, and by both refs being set; emits
offsetStart + (pos - dragStart) to the shared offset. -/
def handleMouseMove (st : CanvasState) (pos : ℚ × ℚ) : CanvasState :=
  if !st.enableDrag || !st.dragging || !st.hasCallback then st
  else
    match st.dragStart, st.offsetStart with
    | some ds, some os =>
      { st with imageOffset := (os.1 + (pos.1 - ds.1), os.2 + (pos.2 - ds.2)) }
    | _, _ => st

/-- stopDragging (line 106), used for both mouse-up and mouse-leave. -/
def stopDragging (st : CanvasState) : CanvasState :=
  { st with dragging := false }

/-- The startup presets initializer (lines 337-345):
try to read the key; a null or empty (falsy) raw value falls through to [];
JSON.parse throwing is caught and also yields []. The parse itself is the
browser's JSON.parse, external to the repository, modelled as a function
returning none when it throws. -/
def loadPresets (parseJson : String → Option (List Preset))
    (raw : Option String) : List Preset :=
  match raw with
  | none => []
  | some s =>
    if s = "" then []
    else
      match parseJson s with
      | some ps => ps
      | none => []

/-- C1: for every size (w,h), if w > 1.5*h the layout branch taken is
Leaderboard; else if h > 1.5*w it is Skyscraper; otherwise Standard; and,
independently of that three-way choice, the micro flag is set exactly when
h <= 60. -/
theorem classify_spec (s : AdSize) :
    (s.w > s.h * 1.5 → classify s = LayoutClass.Leaderboard) ∧
    (¬ s.w > s.h * 1.5 → s.h > s.w * 1.5 → classify s = LayoutClass.Skyscraper) ∧
    (¬ s.w > s.h * 1.5 → ¬ s.h > s.w * 1.5 → classify s = LayoutClass.Standard) ∧
    (s.isMicro = true ↔ s.h ≤ 60) := by
  refine ⟨fun h1 => ?_, fun h1 h2 => ?_, fun h1 h2 => ?_, ?_⟩ <;>
    simp [classify, AdSize.isLeaderboard, AdSize.isSkyscraper, AdSize.isMicro, *]

/-- Witness for classify_spec at the catalog sizes 970x250 (leaderboard),
300x600 (skyscraper), 300x250 (standard) and 320x50 (micro). -/
theorem classify_spec_witness :
    classify ⟨970, 250⟩ = LayoutClass.Leaderboard ∧
    classify ⟨300, 600⟩ = LayoutClass.Skyscraper ∧
    classify ⟨300, 250⟩ = LayoutClass.Standard ∧
    (AdSize.isMicro ⟨320, 50⟩ = true ↔ (50 : ℚ) ≤ 60) :=
  ⟨(classify_spec ⟨970, 250⟩).1 (by norm_num),
   (classify_spec ⟨300, 600⟩).2.1 (by norm_num) (by norm_num),
   (classify_spec ⟨300, 250⟩).2.2.1 (by norm_num) (by norm_num),
   (classify_spec ⟨320, 50⟩).2.2.2⟩

/-- C9: for positive sizes, the leaderboard and skyscraper predicates are
mutually exclusive, so each size takes exactly one of the three layout
branches. -/
theorem leaderboard_skyscraper_exclusive (s : AdSize) (hw : 0 < s.w)
    (hh : 0 < s.h) : ¬ (s.isLeaderboard = true ∧ s.isSkyscraper = true) := by
  simp only [AdSize.isLeaderboard, AdSize.isSkyscraper, decide_eq_true_eq]
  rintro ⟨h1, h2⟩
  nlinarith

/-- Witness for leaderboard_skyscraper_exclusive at size 300x250. -/
theorem leaderboard_skyscraper_exclusive_witness :
    0 < (300 : ℚ) ∧ 0 < (250 : ℚ) ∧
    ¬ (AdSize.isLeaderboard ⟨300, 250⟩ = true ∧
       AdSize.isSkyscraper ⟨300, 250⟩ = true) :=
  ⟨by norm_num, by norm_num,
   leaderboard_skyscraper_exclusive ⟨300, 250⟩ (by norm_num) (by norm_num)⟩

/-- C5: whenever the micro flag is set (h <= 60), the rendered text region
contains no subhead element, regardless of the layout branch. -/
theorem micro_suppresses_subhead (s : AdSize) (hd sub : String)
    (h : s.isMicro = true) : (renderText s hd sub).subhead = none := by
  simp [renderText, h]

/-- Witness for micro_suppresses_subhead on a micro leaderboard (320x50),
a micro standard square (60x60) and a micro skyscraper (30x50). -/
theorem micro_suppresses_subhead_witness :
    (renderText ⟨320, 50⟩ "a" "b").subhead = none ∧
    (renderText ⟨60, 60⟩ "a" "b").subhead = none ∧
    (renderText ⟨30, 50⟩ "a" "b").subhead = none :=
  ⟨micro_suppresses_subhead ⟨320, 50⟩ "a" "b" (by norm_num [AdSize.isMicro]),
   micro_suppresses_subhead ⟨60, 60⟩ "a" "b" (by norm_num [AdSize.isMicro]),
   micro_suppresses_subhead ⟨30, 50⟩ "a" "b" (by norm_num [AdSize.isMicro])⟩

/-- C6 counterexample: the size 60x60 is classified Standard (neither
w > 1.5*h nor h > 1.5*w), yet its rendered headline font size is 11px, not
18px, and its subhead is absent rather than 12px, because h = 60 sets the
micro flag and the micro branch takes priority in the font-size ternary. -/
theorem standard_fontsize_counterexample :
    classify ⟨60, 60⟩ = LayoutClass.Standard ∧
    (renderText ⟨60, 60⟩ "Hello" "World").headlineFontSize = 11 ∧
    ¬ (renderText ⟨60, 60⟩ "Hello" "World").headlineFontSize = 18 ∧
    (renderText ⟨60, 60⟩ "Hello" "World").subhead = none := by
  have hl : AdSize.isLeaderboard ⟨60, 60⟩ = false := by
    norm_num [AdSize.isLeaderboard]
  have hs : AdSize.isSkyscraper ⟨60, 60⟩ = false := by
    norm_num [AdSize.isSkyscraper]
  have hm : AdSize.isMicro ⟨60, 60⟩ = true := by
    norm_num [AdSize.isMicro]
  refine ⟨?_, ?_, ?_, ?_⟩ <;> norm_num [classify, renderText, hl, hs, hm]

/-- C6 amended: for every size classified Standard whose micro flag is not
set, the rendered layout uses headline font size 18px and subhead font size
12px. -/
theorem standard_nonmicro_fontsize (s : AdSize) (hd sub : String)
    (hstd : classify s = LayoutClass.Standard) (hm : s.isMicro = false) :
    (renderText s hd sub).headlineFontSize = 18 ∧
    (renderText s hd sub).subhead = some (sub, 12) := by
  unfold classify at hstd
  by_cases hl : s.isLeaderboard <;> by_cases hsk : s.isSkyscraper <;>
    simp [hl, hsk] at hstd ⊢ <;> simp [renderText, hl, hsk, hm]

/-- Witness for standard_nonmicro_fontsize at the medium rectangle 300x250. -/
theorem standard_nonmicro_fontsize_witness :
    (renderText ⟨300, 250⟩ "Hello" "World").headlineFontSize = 18 ∧
    (renderText ⟨300, 250⟩ "Hello" "World").subhead = some ("World", 12) :=
  standard_nonmicro_fontsize ⟨300, 250⟩ "Hello" "World"
    (by norm_num [classify, AdSize.isLeaderboard, AdSize.isSkyscraper])
    (by norm_num [AdSize.isMicro])

/-- C2 counterexample: a preset carrying imageScale 3 is stored as 3, not
clamped to 1.5, and a slider-change value of 0.2 is stored as 0.2, not
clamped to 0.5: no setter clamps the scale. -/
theorem scale_not_clamped_counterexample :
    (applyPreset (initialAppState [])
      { id := "1", name := "Big", headline := "", subhead := "", cta := "",
        primaryColor := "#EF4444", darkMode := false, imageScale := 3,
        imageOffset := (0, 0) }).imageScale = 3 ∧
    ¬ (3 : ℚ) = 1.5 ∧
    (handleScaleChange (initialAppState []) 0.2).imageScale = 0.2 ∧
    ¬ (0.2 : ℚ) = 0.5 := by
  refine ⟨rfl, by norm_num, rfl, by norm_num⟩

/-- C2 amended: the stored image scale always equals the attempted value,
verbatim: applyPreset stores the preset's imageScale and the slider change
handler stores the parsed value, with no clamping in either setter (the range
input's min/max attributes keep slider-emitted values inside [0.5, 1.5], but
the state itself never clamps). -/
theorem scale_stored_verbatim (st : AppState) (p : Preset) (v : ℚ) :
    (applyPreset st p).imageScale = p.imageScale ∧
    (handleScaleChange st v).imageScale = v :=
  ⟨rfl, rfl⟩

/-- C3: when a save goes through (the prompt returned a non-empty name), the
new presets list is the new preset consed onto the old list, truncated to 10:
its head is the newly saved preset and its length is
min (previous length + 1) 10, so it never exceeds 10 and saving an 11th
preset keeps exactly the newest 10. -/
theorem savePreset_spec (st : AppState) (name id : String) (h : ¬ name = "") :
    (handleSavePreset st (some name) id).presets =
      (mkPreset id name st :: st.presets).take 10 ∧
    (handleSavePreset st (some name) id).presets.head? =
      some (mkPreset id name st) ∧
    (handleSavePreset st (some name) id).presets.length =
      min (st.presets.length + 1) 10 ∧
    (handleSavePreset st (some name) id).presets.length ≤ 10 := by
  have hp : (handleSavePreset st (some name) id).presets =
      (mkPreset id name st :: st.presets).take 10 := by
    simp [handleSavePreset, h]
  refine ⟨hp, ?_, ?_, ?_⟩
  · rw [hp]
    rfl
  · rw [hp, List.length_take, List.length_cons]
    omega
  · rw [hp, List.length_take]
    omega

/-- Witness for savePreset_spec: saving an 11th preset into a state already
holding 10 presets keeps exactly 10, with the new one first. -/
theorem savePreset_spec_witness :
    ¬ "Holiday" = "" ∧
    (handleSavePreset
      { initialAppState
          ((List.range 10).map (fun i => mkPreset (toString i) "old"
            (initialAppState []))) with headline := "Save 20%" }
      (some "Holiday") "11").presets.length = 10 := by
  refine ⟨by decide, ?_⟩
  have h := savePreset_spec
    { initialAppState
        ((List.range 10).map (fun i => mkPreset (toString i) "old"
          (initialAppState []))) with headline := "Save 20%" }
    "Holiday" "11" (by decide)
  rw [h.2.2.1]
  rfl

/-- C7: applying the preset that handleSavePreset snapshots from a state st
(mkPreset id name st is exactly the object it stores, lines 381-391) to any
later state restores headline, subhead, cta, primaryColor, darkMode,
imageScale and imageOffset to st's values, whatever happened in between. -/
theorem preset_roundtrip (st other : AppState) (name id : String) :
    (applyPreset other (mkPreset id name st)).headline = st.headline ∧
    (applyPreset other (mkPreset id name st)).subhead = st.subhead ∧
    (applyPreset other (mkPreset id name st)).cta = st.cta ∧
    (applyPreset other (mkPreset id name st)).primaryColor = st.primaryColor ∧
    (applyPreset other (mkPreset id name st)).darkMode = st.darkMode ∧
    (applyPreset other (mkPreset id name st)).imageScale = st.imageScale ∧
    (applyPreset other (mkPreset id name st)).imageOffset = st.imageOffset :=
  ⟨rfl, rfl, rfl, rfl, rfl, rfl, rfl⟩

/-- C4: during a drag, every pointer-move sets the offset to
startingOffset + (currentPointerPos - startingPointerPos), the deltas being
measured from the recorded down-point, not from the previous move; hence a
drag from offset (0,0) whose pointer moves by (10,5) and then by (20,15)
from the down-point ends at offset (20,15), not (30,20). -/
theorem drag_offset_spec :
    (∀ (st : CanvasState) (pos ds os : ℚ × ℚ),
      st.enableDrag = true → st.hasCallback = true → st.dragging = true →
      st.dragStart = some ds → st.offsetStart = some os →
      (handleMouseMove st pos).imageOffset =
        (os.1 + (pos.1 - ds.1), os.2 + (pos.2 - ds.2))) ∧
    (∀ (p0 : ℚ × ℚ) (img : String),
      (handleMouseMove
        (handleMouseMove
          (handleMouseDown
            { enableDrag := true, hasCallback := true, image := some img,
              dragging := false, dragStart := none, offsetStart := none,
              imageOffset := (0, 0) } p0)
          (p0.1 + 10, p0.2 + 5))
        (p0.1 + 20, p0.2 + 15)).imageOffset = (20, 15)) := by
  constructor
  · intro st pos ds os he hc hd hds hos
    simp [handleMouseMove, he, hc, hd, hds, hos]
  · intro p0 img
    simp [handleMouseDown, handleMouseMove]

/-- Witness for drag_offset_spec: a move to (110,107) during a drag that
started at pointer (100,100) with offset (5,5) yields offset (15,12), and the
two-move scenario from down-point (40,40) ends at (20,15). -/
theorem drag_offset_spec_witness :
    (handleMouseMove
      { enableDrag := true, hasCallback := true, image := some "i",
        dragging := true, dragStart := some (100, 100),
        offsetStart := some (5, 5), imageOffset := (5, 5) }
      (110, 107)).imageOffset = (15, 12) ∧
    (handleMouseMove
      (handleMouseMove
        (handleMouseDown
          { enableDrag := true, hasCallback := true, image := some "i",
            dragging := false, dragStart := none, offsetStart := none,
            imageOffset := (0, 0) } (40, 40))
        (40 + 10, 40 + 5))
      (40 + 20, 40 + 15)).imageOffset = (20, 15) := by
  constructor
  · have h := drag_offset_spec.1
      { enableDrag := true, hasCallback := true, image := some "i",
        dragging := true, dragStart := some (100, 100),
        offsetStart := some (5, 5), imageOffset := (5, 5) }
      (110, 107) (100, 100) (5, 5) rfl rfl rfl rfl rfl
    rw [h]
    norm_num
  · exact drag_offset_spec.2 (40, 40) "i"

/-- C10: whenever the active-image index is out of range (the empty list
included), images[activeImageIndex] ?? null resolves to none, and every
preview renders the dashed placeholder (with its class-dependent icon size)
instead of an image element. The embedding is total, so no out-of-bounds
access occurs. -/
theorem outOfRange_placeholder (st : AppState) (s : AdSize) (scale : ℚ)
    (off : ℚ × ℚ) (h : st.images.length ≤ st.activeImageIndex) :
    activeImage st = none ∧
    renderImage s (activeImage st) scale off =
      ImageRegion.placeholder (if s.isMicro then 12 else 24) := by
  have hn : activeImage st = none := by
    unfold activeImage
    exact List.get?_eq_none.mpr h
  exact ⟨hn, by rw [hn]; rfl⟩

/-- Witness for outOfRange_placeholder: the initial state has no images and
index 0, so the 300x250 preview shows the placeholder with icon size 24. -/
theorem outOfRange_placeholder_witness :
    activeImage (initialAppState []) = none ∧
    renderImage ⟨300, 250⟩ (activeImage (initialAppState [])) 1 (0, 0) =
      ImageRegion.placeholder 24 := by
  have h := outOfRange_placeholder (initialAppState []) ⟨300, 250⟩ 1 (0, 0)
    (by simp [initialAppState])
  refine ⟨h.1, ?_⟩
  rw [h.2]
  norm_num [AdSize.isMicro]

/-- C8: at startup, a missing value under the application key, and a stored
string on which the parse throws (the catch branch), both initialize the
preset collection to the empty list; loadPresets is a total function, so the
session cannot crash on any store content. -/
theorem loadPresets_safe (parseJson : String → Option (List Preset))
    (raw : Option String) :
    (raw = none → loadPresets parseJson raw = []) ∧
    (∀ s, raw = some s → parseJson s = none → loadPresets parseJson raw = []) := by
  constructor
  · intro h
    rw [h]
    rfl
  · intro s hr hp
    rw [hr]
    unfold loadPresets
    by_cases he : s = "" <;> simp [he, hp]

/-- Witness for loadPresets_safe: a missing key and a corrupt payload (a
parse that throws on every input) both yield the empty preset list. -/
theorem loadPresets_safe_witness :
    loadPresets (fun _ => none) none = ([] : List Preset) ∧
    loadPresets (fun _ => none) (some "not json") = ([] : List Preset) :=
  ⟨(loadPresets_safe (fun _ => none) none).1 rfl,
   (loadPresets_safe (fun _ => none) (some "not json")).2 "not json" rfl rfl⟩

end GAV
